import Mathlib

/-!
Verification of the streaming proxy / response-rewriting pipeline of the
`google_agents` repository (`deep_tAIpei_app/app/main.py` and
`multi_tool_agent/streaming_agent/app/main.py`).

The Python code manipulates `json.loads`-decoded values: dicts, lists,
strings, numbers, booleans and `None`.  We embed those values as the
inductive type `Json` below.  Python semantics that the code relies on are
modelled explicitly:

* `d.get(k)` returns the value or `None`, and raises `AttributeError` on a
  non-dict receiver — modelled by `pyGet` returning `Except`.
* `d[k]` raises `KeyError` / `TypeError` — modelled by `pyIndex`.
* truthiness (`None`, `False`, `0`, `""`, `[]`, `{}` are falsy) — `truthy`.
* `==` (with `True == 1` and order-insensitive dict equality) — `pyEq`.
* Python `dict` assignment `d[k] = v` keeps the position of an existing
  key and appends a fresh key — `setField` / `objSet`.

Numbers are modelled as rationals; the serializer renders decimal
fractions the way CPython's `repr` renders the floats that arise from
decimal literals (`25.03` ↦ `"25.03"`).  No arithmetic is ever performed
on numbers by the code under study, only copying and equality.
-/

/-- A decoded JSON value (the result of Python's `json.loads`). -/
inductive Json where
  | null : Json
  | bool (b : Bool) : Json
  | num (q : Rat) : Json
  | str (s : String) : Json
  | arr (xs : List Json) : Json
  | obj (fields : List (String × Json)) : Json
deriving Repr

/-- Python truthiness of a decoded value: `None`, `False`, `0`, `""`,
`[]` and `{}` are falsy, everything else is truthy. -/
def truthy : Json → Bool
  | Json.null => false
  | Json.bool b => b
  | Json.num q => !(q = 0)
  | Json.str s => !(s = "")
  | Json.arr xs => !xs.isEmpty
  | Json.obj fs => !fs.isEmpty

/-- First binding of a key in an association list (Python dicts never hold
duplicate keys, so this is the unique binding). -/
def lookupField : List (String × Json) → String → Option Json
  | [], _ => none
  | (k, v) :: rest, key => if k = key then some v else lookupField rest key

/-- Python `d[k] = v`: replace the value at an existing key in place,
append a fresh key at the end. -/
def setField : List (String × Json) → String → Json → List (String × Json)
  | [], key, v => [(key, v)]
  | (k, w) :: rest, key, v =>
    if k = key then (k, v) :: rest else (k, w) :: setField rest key v

/-- Key lookup on a `Json` value; `none` when the value is not an object
or the key is absent. -/
def objLookup : Json → String → Option Json
  | Json.obj fs, key => lookupField fs key
  | _, _ => none

/-- The operation `objSet j k v` is Python `j[k] = v` for an object `j` (identity on
non-objects; every call site below has already established that the
receiver is a dict). -/
def objSet : Json → String → Json → Json
  | Json.obj fs, key, v => Json.obj (setField fs key v)
  | j, _, _ => j

/-- Python `d.get(k)`: `AttributeError` on a non-dict receiver, otherwise
the stored value or `None` (modelled as `Json.null`). -/
def pyGet (j : Json) (key : String) : Except String Json :=
  match j with
  | Json.obj fs => Except.ok ((lookupField fs key).getD Json.null)
  | _ => Except.error "AttributeError"

/-- Python `d.get(k, default)` at a call site where the receiver is known
to be a dict (the surrounding code has already performed a `.get` on it). -/
def objGetD (j : Json) (key : String) (dflt : Json) : Json :=
  match j with
  | Json.obj fs => (lookupField fs key).getD dflt
  | _ => dflt

/-- Python `d[k]`: `TypeError` on a non-dict receiver, `KeyError` when the
key is absent. -/
def pyIndex (j : Json) (key : String) : Except String Json :=
  match j with
  | Json.obj fs =>
    match lookupField fs key with
    | some v => Except.ok v
    | none => Except.error "KeyError"
  | _ => Except.error "TypeError"

/-- Python `==` on decoded JSON values, fuel-bounded: structural equality
except that booleans compare equal to the numbers 0/1 (in Python
`True == 1`) and dicts compare as unordered mappings. -/
def pyEqFuel : Nat → Json → Json → Bool
  | 0, _, _ => false
  | _ + 1, Json.null, Json.null => true
  | _ + 1, Json.bool a, Json.bool b => a = b
  | _ + 1, Json.bool a, Json.num q => ((if a then (1 : Rat) else 0) = q)
  | _ + 1, Json.num q, Json.bool b => (q = (if b then (1 : Rat) else 0))
  | _ + 1, Json.num a, Json.num b => a = b
  | _ + 1, Json.str a, Json.str b => a = b
  | f + 1, Json.arr xs, Json.arr ys =>
    xs.length = ys.length && (xs.zip ys).all (fun p => pyEqFuel f p.1 p.2)
  | f + 1, Json.obj xs, Json.obj ys =>
    (xs.all (fun kv =>
      match lookupField ys kv.1 with
      | some w => pyEqFuel f kv.2 w
      | none => false)) &&
    (ys.all (fun kv =>
      match lookupField xs kv.1 with
      | some w => pyEqFuel f kv.2 w
      | none => false))
  | _ + 1, _, _ => false

mutual

/-- Structural size of a `Json` value, used as fuel for the fuel-bounded
functions below (depth and width are both bounded by it). -/
def jsize : Json → Nat
  | Json.null => 1
  | Json.bool _ => 1
  | Json.num _ => 1
  | Json.str _ => 1
  | Json.arr xs => 1 + jsizeList xs
  | Json.obj fs => 1 + jsizeFields fs

def jsizeList : List Json → Nat
  | [] => 1
  | x :: rest => 1 + jsize x + jsizeList rest

def jsizeFields : List (String × Json) → Nat
  | [] => 1
  | (_, v) :: rest => 1 + jsize v + jsizeFields rest

end

/-- Python `==` on decoded JSON values. -/
def pyEq (a b : Json) : Bool :=
  pyEqFuel (jsize a + jsize b + 1) a b

/-! ## Serializer: Python `json.dumps` with default options

Default separators are `", "` and `": "`, `ensure_ascii=True` escapes
control and non-ASCII characters, and strings are double-quoted. -/

/-- The decimal digit characters. -/
def digitChar10 (d : Nat) : Char :=
  match d % 10 with
  | 0 => '0' | 1 => '1' | 2 => '2' | 3 => '3' | 4 => '4'
  | 5 => '5' | 6 => '6' | 7 => '7' | 8 => '8' | _ => '9'

/-- The hexadecimal digit characters (lower case, as Python emits). -/
def hexDigitChar (d : Nat) : Char :=
  match d % 16 with
  | 0 => '0' | 1 => '1' | 2 => '2' | 3 => '3' | 4 => '4'
  | 5 => '5' | 6 => '6' | 7 => '7' | 8 => '8' | 9 => '9'
  | 10 => 'a' | 11 => 'b' | 12 => 'c' | 13 => 'd' | 14 => 'e' | _ => 'f'

/-- Decimal digits of `n`, most significant first (fuel-bounded; the fuel
`n + 1` used by `natChars` always suffices). -/
def natDigits : Nat → Nat → List Char
  | 0, _ => []
  | fuel + 1, n =>
    if n < 10 then [digitChar10 n]
    else natDigits fuel (n / 10) ++ [digitChar10 (n % 10)]

/-- The decimal rendering of a natural number. -/
def natChars (n : Nat) : List Char := natDigits (n + 1) n

/-- The decimal rendering of an integer. -/
def intChars (i : Int) : List Char :=
  if i < 0 then '-' :: natChars i.natAbs else natChars i.natAbs

/-- Smallest `k ≤ fuel` with `d ∣ 10 ^ k`, if any. -/
def pow10Exponent (d : Nat) : Nat → Option Nat
  | 0 => if 10 ^ 0 % d = 0 then some 0 else none
  | fuel + 1 =>
    match pow10Exponent d fuel with
    | some k => some k
    | none => if 10 ^ (fuel + 1) % d = 0 then some (fuel + 1) else none

/-- Rendering of a JSON number.  Integers render without a decimal point;
a fraction whose denominator divides a power of ten renders as the exact
decimal expansion (this is how CPython's `repr` prints the floats that
arise from such decimal literals, e.g. `25.03`).  Other denominators
cannot arise from decimal source text; they render as `num/den`. -/
def numChars (q : Rat) : List Char :=
  if q.den = 1 then intChars q.num
  else
    match pow10Exponent q.den 40 with
    | some k =>
      let m : Nat := q.num.natAbs * (10 ^ k / q.den)
      let ip : Nat := m / 10 ^ k
      let fr : Nat := m % 10 ^ k
      let ds : List Char := natChars fr
      (if q.num < 0 then ['-'] else []) ++ natChars ip ++ '.' ::
        (List.replicate (k - ds.length) '0' ++ ds)
    | none => intChars q.num ++ '/' :: natChars q.den

/-- Escape of one character inside a JSON string, per Python `json.dumps`
with `ensure_ascii=True`. -/
def escChar (c : Char) : List Char :=
  if c = '"' then ['\\', '"']
  else if c = '\\' then ['\\', '\\']
  else if c = '\n' then ['\\', 'n']
  else if c = '\t' then ['\\', 't']
  else if c = '\r' then ['\\', 'r']
  else if c = Char.ofNat 8 then ['\\', 'b']
  else if c = Char.ofNat 12 then ['\\', 'f']
  else if c.toNat < 32 || 126 < c.toNat then
    '\\' :: 'u' :: [hexDigitChar (c.toNat / 4096), hexDigitChar (c.toNat / 256),
      hexDigitChar (c.toNat / 16), hexDigitChar c.toNat]
  else [c]

/-- Serialization of a JSON string literal. -/
def dumpStr (s : String) : String :=
  String.mk ('"' :: (s.data.map escChar).flatten ++ ['"'])

/-- Joining of element serializations with `", "`. -/
def dumpListWith (d : Json → String) : List Json → String
  | [] => ""
  | [x] => d x
  | x :: y :: rest => d x ++ ", " ++ dumpListWith d (y :: rest)

/-- Joining of `key: value` serializations with `", "`. -/
def dumpFieldsWith (d : Json → String) : List (String × Json) → String
  | [] => ""
  | [(k, v)] => dumpStr k ++ ": " ++ d v
  | (k, v) :: f :: rest => dumpStr k ++ ": " ++ d v ++ ", " ++ dumpFieldsWith d (f :: rest)

/-- Fuel-bounded core of the serializer (structural on the fuel so that it
reduces definitionally; `jsonDumps` supplies sufficient fuel). -/
def dumpFuel : Nat → Json → String
  | 0, _ => ""
  | _ + 1, Json.null => "null"
  | _ + 1, Json.bool true => "true"
  | _ + 1, Json.bool false => "false"
  | _ + 1, Json.num q => String.mk (numChars q)
  | _ + 1, Json.str s => dumpStr s
  | fuel + 1, Json.arr xs => "[" ++ dumpListWith (dumpFuel fuel) xs ++ "]"
  | fuel + 1, Json.obj fs => "\x7b" ++ dumpFieldsWith (dumpFuel fuel) fs ++ "\x7d"

/-- Python `json.dumps` with default options. -/
def jsonDumps (j : Json) : String := dumpFuel (jsize j) j

/-! ## Parser: Python `json.loads`

A recursive-descent parser over the character list, fuel-bounded for the
nesting depth (`jsonParse` supplies fuel larger than the input length, so
the bound is never hit on real input).  It accepts exactly the JSON
grammar that `json.loads` accepts; on any other input it returns `none`,
which models `json.JSONDecodeError`. -/

/-- JSON whitespace (the four characters `json.loads` skips). -/
def isJsonWs (c : Char) : Bool :=
  c = ' ' || c = '\t' || c = '\n' || c = '\r'

/-- Drop leading JSON whitespace. -/
def skipWs : List Char → List Char
  | [] => []
  | c :: rest => if isJsonWs c then skipWs rest else c :: rest

/-- Value of a hexadecimal digit character. -/
def hexVal (c : Char) : Option Nat :=
  if '0' ≤ c ∧ c ≤ '9' then some (c.toNat - 48)
  else if 'a' ≤ c ∧ c ≤ 'f' then some (c.toNat - 87)
  else if 'A' ≤ c ∧ c ≤ 'F' then some (c.toNat - 55)
  else none

/-- String-literal body parser: consumes characters up to the closing
quote, handling the escape sequences `json.loads` accepts. -/
def parseStrLoop : List Char → List Char → Option (String × List Char)
  | _, [] => none
  | acc, c :: rest =>
    if c = '"' then some (String.mk acc.reverse, rest)
    else if c = '\\' then
      match rest with
      | [] => none
      | e :: rest2 =>
        if e = '"' then parseStrLoop ('"' :: acc) rest2
        else if e = '\\' then parseStrLoop ('\\' :: acc) rest2
        else if e = '/' then parseStrLoop ('/' :: acc) rest2
        else if e = 'b' then parseStrLoop (Char.ofNat 8 :: acc) rest2
        else if e = 'f' then parseStrLoop (Char.ofNat 12 :: acc) rest2
        else if e = 'n' then parseStrLoop ('\n' :: acc) rest2
        else if e = 'r' then parseStrLoop ('\r' :: acc) rest2
        else if e = 't' then parseStrLoop ('\t' :: acc) rest2
        else if e = 'u' then
          match rest2 with
          | h1 :: h2 :: h3 :: h4 :: rest3 =>
            match hexVal h1, hexVal h2, hexVal h3, hexVal h4 with
            | some a, some b, some cc, some d =>
              parseStrLoop (Char.ofNat (((a * 16 + b) * 16 + cc) * 16 + d) :: acc) rest3
            | _, _, _, _ => none
          | _ => none
        else none
    else parseStrLoop (c :: acc) rest

/-- Parse a maximal run of decimal digits, returning its value and count. -/
def parseDigits : List Char → Nat → Nat → (Nat × Nat × List Char)
  | [], acc, cnt => (acc, cnt, [])
  | c :: rest, acc, cnt =>
    if '0' ≤ c ∧ c ≤ '9' then parseDigits rest (acc * 10 + (c.toNat - 48)) (cnt + 1)
    else (acc, cnt, c :: rest)

/-- Apply a decimal exponent to a rational. -/
def applyExp (q : Rat) (e : Int) : Rat :=
  if 0 ≤ e then q * (10 : Rat) ^ e.toNat else q / (10 : Rat) ^ (-e).toNat

/-- Parse the part of a JSON number after the optional leading minus. -/
def parseNumBody (cs : List Char) : Option (Rat × List Char) :=
  match parseDigits cs 0 0 with
  | (_, 0, _) => none
  | (ip, _, rest1) =>
    let (mant, scale, rest2) :=
      match rest1 with
      | '.' :: restf =>
        match parseDigits restf 0 0 with
        | (_, 0, _) => (ip, none, restf)
        | (fp, fcnt, restf2) => (ip * 10 ^ fcnt + fp, some fcnt, restf2)
      | _ => (ip, some 0, rest1)
    match scale with
    | none => none
    | some sc =>
      let base : Rat := mkRat (Int.ofNat mant) (10 ^ sc)
      match rest2 with
      | 'e' :: rest3 =>
        match rest3 with
        | '+' :: rest4 =>
          match parseDigits rest4 0 0 with
          | (_, 0, _) => none
          | (ex, _, rest5) => some (applyExp base (Int.ofNat ex), rest5)
        | '-' :: rest4 =>
          match parseDigits rest4 0 0 with
          | (_, 0, _) => none
          | (ex, _, rest5) => some (applyExp base (-(Int.ofNat ex)), rest5)
        | _ =>
          match parseDigits rest3 0 0 with
          | (_, 0, _) => none
          | (ex, _, rest5) => some (applyExp base (Int.ofNat ex), rest5)
      | 'E' :: rest3 =>
        match rest3 with
        | '+' :: rest4 =>
          match parseDigits rest4 0 0 with
          | (_, 0, _) => none
          | (ex, _, rest5) => some (applyExp base (Int.ofNat ex), rest5)
        | '-' :: rest4 =>
          match parseDigits rest4 0 0 with
          | (_, 0, _) => none
          | (ex, _, rest5) => some (applyExp base (-(Int.ofNat ex)), rest5)
        | _ =>
          match parseDigits rest3 0 0 with
          | (_, 0, _) => none
          | (ex, _, rest5) => some (applyExp base (Int.ofNat ex), rest5)
      | _ => some (base, rest2)

/-- Array-element list: `p` parses one value; elements are separated by
commas and the list is closed by `]`. -/
def parseElems (p : List Char → Option (Json × List Char)) :
    Nat → List Char → Option (List Json × List Char)
  | 0, _ => none
  | fuel + 1, cs =>
    match p (skipWs cs) with
    | none => none
    | some (v, rest) =>
      match skipWs rest with
      | ',' :: rest2 =>
        match parseElems p fuel rest2 with
        | some (vs, rest3) => some (v :: vs, rest3)
        | none => none
      | ']' :: rest2 => some ([v], rest2)
      | _ => none

/-- Object-member list: `key: value` pairs separated by commas, closed by
`}`.  A duplicate key overwrites the earlier binding in place, exactly as
`json.loads` building a Python dict does. -/
def parseMembers (p : List Char → Option (Json × List Char)) :
    Nat → List (String × Json) → List Char → Option (List (String × Json) × List Char)
  | 0, _, _ => none
  | fuel + 1, acc, cs =>
    match skipWs cs with
    | '"' :: rest =>
      match parseStrLoop [] rest with
      | none => none
      | some (k, rest2) =>
        match skipWs rest2 with
        | ':' :: rest3 =>
          match p (skipWs rest3) with
          | none => none
          | some (v, rest4) =>
            match skipWs rest4 with
            | ',' :: rest5 => parseMembers p fuel (setField acc k v) rest5
            | '\x7d' :: rest5 => some (setField acc k v, rest5)
            | _ => none
        | _ => none
    | _ => none

/-- Fuel-bounded JSON value parser. -/
def parseValue : Nat → List Char → Option (Json × List Char)
  | 0, _ => none
  | fuel + 1, cs =>
    match cs with
    | [] => none
    | 'n' :: 'u' :: 'l' :: 'l' :: rest => some (Json.null, rest)
    | 't' :: 'r' :: 'u' :: 'e' :: rest => some (Json.bool true, rest)
    | 'f' :: 'a' :: 'l' :: 's' :: 'e' :: rest => some (Json.bool false, rest)
    | '"' :: rest =>
      match parseStrLoop [] rest with
      | some (s, rest2) => some (Json.str s, rest2)
      | none => none
    | '[' :: rest =>
      match skipWs rest with
      | ']' :: rest2 => some (Json.arr [], rest2)
      | rest2 =>
        match parseElems (parseValue fuel) fuel rest2 with
        | some (vs, rest3) => some (Json.arr vs, rest3)
        | none => none
    | '\x7b' :: rest =>
      match skipWs rest with
      | '\x7d' :: rest2 => some (Json.obj [], rest2)
      | rest2 =>
        match parseMembers (parseValue fuel) fuel [] rest2 with
        | some (fs, rest3) => some (Json.obj fs, rest3)
        | none => none
    | '-' :: rest =>
      match parseNumBody rest with
      | some (q, rest2) => some (Json.num (-q), rest2)
      | none => none
    | c :: _ =>
      if '0' ≤ c ∧ c ≤ '9' then
        match parseNumBody cs with
        | some (q, rest2) => some (Json.num q, rest2)
        | none => none
      else none

/-- Python `json.loads`: parse one value, allow surrounding whitespace,
require the input to be exhausted. -/
def jsonParse (s : String) : Option Json :=
  match parseValue (s.length + 2) (skipWs s.data) with
  | some (v, rest) => if skipWs rest = [] then some v else none
  | none => none

/-! ## The location store

`USER_LOCATIONS` is a module-level dict that the code only ever accesses
at the key `"browser"`, so it is modelled as that single slot.  An
`Except`-valued result models an exception escaping to the endpoint's
`except` clause. -/

/-- The guard `"browser" in USER_LOCATIONS and USER_LOCATIONS["browser"]`:
the guard under which the rewriter substitutes a location. -/
def browserAvailable : Option Json → Bool
  | some j => truthy j
  | none => false

/-- Whether `f"{v:.4f}"` succeeds on a decoded JSON value: numbers do,
and so do booleans (Python `bool` is an `int` subclass); everything else
raises in the format step. -/
def isNumFormattable : Json → Bool
  | Json.num _ => true
  | Json.bool _ => true
  | _ => false

/-- Whether the `logger.info(f"... {location['lat']:.4f}, {location['lng']:.4f}")`
line of `store_location` runs without raising. -/
def formatOk (location : Json) : Bool :=
  match pyIndex location "lat", pyIndex location "lng" with
  | Except.ok la, Except.ok ln => isNumFormattable la && isNumFormattable ln
  | _, _ => false

/-- The endpoint `POST /proxy/store_location` (`store_location` in both `main.py`
copies).  The handler assigns `USER_LOCATIONS["browser"] = location`
first and only then runs the logging f-string whose `:.4f` conversions
raise on a missing or non-formattable coordinate; the `except` clause
turns that into a 500 response, but the assignment has already happened.
Returns the new browser slot and `true` for the 200 "success" response,
`false` for the 500 error response. -/
def store_location (_browserSlot : Option Json) (location : Json) :
    Option Json × Bool :=
  (some location, formatOk location)

/-! ## The streaming correlator/rewriter (`sse_connect.event_generator`)

Both `main.py` copies contain the same per-chunk loop (the
`deep_tAIpei_app` copy additionally logs text parts, which raises on
exactly the same malformed inputs as the processing loop, so the two
copies have the same input/output behavior).  The loop state is
`function_call_detected` / `current_function_id`. -/

/-- The correlator state of one stream:
`function_call_detected` and `current_function_id` (initially `None`,
modelled as `Json.null` since `.get("id")` also yields `None`). -/
structure CorrState where
  detected : Bool
  currentId : Json
deriving Repr

/-- The generator initializes `function_call_detected = False`,
`current_function_id = None`. -/
def initState : CorrState := { detected := false, currentId := Json.null }

/-- The replacement response built from the stored browser location:
`{"status": "success", "coordinates": {"lat", "lng"}, "accuracy", "source": "browser"}`. -/
def newLocationResponse (lat lng acc : Json) : Json :=
  Json.obj [("status", Json.str "success"),
    ("coordinates", Json.obj [("lat", lat), ("lng", lng)]),
    ("accuracy", acc),
    ("source", Json.str "browser")]

/-- Body of the matched-`functionResponse` branch: if a truthy browser
location is stored, replace the part's `response` with
`newLocationResponse` (reading `browser_loc["lat"]`, `browser_loc["lng"]`
and `browser_loc.get("accuracy", 0)`); otherwise leave the part alone.
The correlator state is returned unchanged — the code never resets
`function_call_detected`. -/
def substituteLocation (locs : Option Json) (st : CorrState) (part fr : Json) :
    Except String (CorrState × Json) :=
  if browserAvailable locs then
    match locs with
    | none => Except.ok (st, part)
    | some bl =>
      match pyIndex bl "lat" with
      | Except.error e => Except.error e
      | Except.ok lat =>
        match pyIndex bl "lng" with
        | Except.error e => Except.error e
        | Except.ok lng =>
          Except.ok (st, objSet part "functionResponse"
            (objSet fr "response"
              (newLocationResponse lat lng (objGetD bl "accuracy" (Json.num 0)))))
  else Except.ok (st, part)

/-- The third branch of the `elif` chain: a `functionResponse` named
`show_place_details`.  Reads `response = fr.get("response", {})`; if
`response.get("status") == "success" and response.get("location")`, adds
`response["ui_action"] = "show_map"`; otherwise only logs. -/
def showPlaceBranch (st : CorrState) (part fr : Json) :
    Except String (CorrState × Json) :=
  let resp := objGetD fr "response" (Json.obj [])
  match pyGet resp "status" with
  | Except.error e => Except.error e
  | Except.ok stv =>
    if pyEq stv (Json.str "success") then
      match pyGet resp "location" with
      | Except.error e => Except.error e
      | Except.ok loc =>
        if truthy loc then
          Except.ok (st, objSet part "functionResponse"
            (objSet fr "response" (objSet resp "ui_action" (Json.str "show_map"))))
        else Except.ok (st, part)
    else Except.ok (st, part)

/-- The second and third branches of the `elif` chain, reached when the
part is not a `get_current_place` function call. -/
def processPartResp (locs : Option Json) (st : CorrState) (part : Json) :
    Except String (CorrState × Json) :=
  match pyGet part "functionResponse" with
  | Except.error e => Except.error e
  | Except.ok fr =>
    if truthy fr then
      if st.detected then
        match pyGet fr "id" with
        | Except.error e => Except.error e
        | Except.ok rid =>
          if pyEq rid st.currentId then substituteLocation locs st part fr
          else
            match pyGet fr "name" with
            | Except.error e => Except.error e
            | Except.ok nm =>
              if pyEq nm (Json.str "show_place_details") then showPlaceBranch st part fr
              else Except.ok (st, part)
      else
        match pyGet fr "name" with
        | Except.error e => Except.error e
        | Except.ok nm =>
          if pyEq nm (Json.str "show_place_details") then showPlaceBranch st part fr
          else Except.ok (st, part)
    else Except.ok (st, part)

/-- One iteration of `for part_index, part in enumerate(data["content"]["parts"])`:
the `if/elif/elif` chain over one part. -/
def processPart (locs : Option Json) (st : CorrState) (part : Json) :
    Except String (CorrState × Json) :=
  match pyGet part "functionCall" with
  | Except.error e => Except.error e
  | Except.ok fc =>
    if truthy fc then
      match pyGet fc "name" with
      | Except.error e => Except.error e
      | Except.ok nm =>
        if pyEq nm (Json.str "get_current_place") then
          let fid := objGetD fc "id" Json.null
          Except.ok ({ detected := true, currentId := fid }, part)
        else processPartResp locs st part
    else processPartResp locs st part

/-- The loop over all parts of one decoded payload, threading the
correlator state in payload order. -/
def processParts (locs : Option Json) : CorrState → List Json →
    Except String (CorrState × List Json)
  | st, [] => Except.ok (st, [])
  | st, p :: ps =>
    match processPart locs st p with
    | Except.error e => Except.error e
    | Except.ok (st1, p1) =>
      match processParts locs st1 ps with
      | Except.error e => Except.error e
      | Except.ok (st2, ps2) => Except.ok (st2, p1 :: ps2)

/-- Processing of one decoded payload: guarded by
`if data.get("content") and data["content"].get("parts")`, iterate over
the parts and write the (possibly mutated) parts back in place.
Iterating a truthy non-list raises (a non-empty dict yields string keys,
a non-empty string yields characters — either way the first `part.get`
raises `AttributeError`; a number raises `TypeError`). -/
def processData (locs : Option Json) (st : CorrState) (data : Json) :
    Except String (CorrState × Json) :=
  match pyGet data "content" with
  | Except.error e => Except.error e
  | Except.ok content =>
    if truthy content then
      match pyGet content "parts" with
      | Except.error e => Except.error e
      | Except.ok parts =>
        if truthy parts then
          match parts with
          | Json.arr ps =>
            match processParts locs st ps with
            | Except.error e => Except.error e
            | Except.ok (st1, ps1) =>
              Except.ok (st1, objSet data "content"
                (objSet content "parts" (Json.arr ps1)))
          | _ => Except.error "TypeError"
        else Except.ok (st, data)
    else Except.ok (st, data)

/-- Python `not chunk.strip()`: every character is whitespace (or the
chunk is empty). -/
def isBlank (s : String) : Bool := s.data.all isJsonWs

/-- One iteration of `async for chunk in response.aiter_text()`:
whitespace-only chunks are skipped; a chunk starting with `"data: "` has
the prefix stripped and the remainder `json.loads`-decoded — on success
the processed payload is re-encoded as `f"data: {json.dumps(data)}\n\n"`,
on `JSONDecodeError` the original chunk is passed through with `"\n\n"`
appended; any other chunk is passed through with `"\n\n"` appended.
Returns the emitted frames (0 or 1 per chunk); an `Except.error` is an
exception escaping to the generator's `except` clause. -/
def processChunk (locs : Option Json) (st : CorrState) (chunk : String) :
    Except String (CorrState × List String) :=
  if isBlank chunk then Except.ok (st, [])
  else if "data: ".data.isPrefixOf chunk.data then
    match jsonParse (String.mk (chunk.data.drop 6)) with
    | some data =>
      match processData locs st data with
      | Except.error e => Except.error e
      | Except.ok (st1, data1) =>
        Except.ok (st1, ["data: " ++ jsonDumps data1 ++ "\n\n"])
    | none => Except.ok (st, [chunk ++ "\n\n"])
  else Except.ok (st, [chunk ++ "\n\n"])

/-- The chunk loop: frames emitted so far, the final correlator state,
and the exception (if one escaped, at which point the loop stops). -/
def runChunks (locs : Option Json) : CorrState → List String →
    List String × CorrState × Option String
  | st, [] => ([], st, none)
  | st, c :: cs =>
    match processChunk locs st c with
    | Except.error e => ([], st, some e)
    | Except.ok (st1, fs) =>
      let rest := runChunks locs st1 cs
      (fs ++ rest.1, rest.2)

/-! ## The pending-request store and the SSE endpoint lifecycle -/

/-- One `SSE_MESSAGES` entry: `{"data": ..., "status": ...}`. -/
structure SseEntry where
  payload : Json
  status : String
deriving Repr

/-- The `SSE_MESSAGES` dict (keys are unique). -/
abbrev SseStore := List (String × SseEntry)

/-- Membership test `request_id in SSE_MESSAGES` and read `SSE_MESSAGES[request_id]`. -/
def lookupStore : SseStore → String → Option SseEntry
  | [], _ => none
  | (k, e) :: rest, rid => if k = rid then some e else lookupStore rest rid

/-- The statement `if request_id in SSE_MESSAGES: SSE_MESSAGES[request_id]["status"] = s`
(a no-op when the id is absent, e.g. already evicted). -/
def setStatus : SseStore → String → String → SseStore
  | [], _, _ => []
  | (k, e) :: rest, rid, s =>
    if k = rid then (k, { e with status := s }) :: rest
    else (k, e) :: setStatus rest rid s

/-- The entry gate of `GET /proxy/sse_connect/{request_id}`: a 404
(`none`) exactly when the id is absent from `SSE_MESSAGES`; otherwise the
status is set to `"in-progress"` and the streaming response is opened
(`some` of the updated store).  The code never inspects the stored
status, only membership. -/
def sse_connect_open (store : SseStore) (rid : String) : Option SseStore :=
  match lookupStore store rid with
  | none => none
  | some _ => some (setStatus store rid "in-progress")

/-- The single terminal frame yielded by the generator's `except` clause:
`f"data: {{\"error\": \"{str(e)}\"}}\n\n"`. -/
def errorFrame (e : String) : String :=
  "data: \x7b\"error\": \"" ++ e ++ "\"\x7d\n\n"

/-- The whole generator run for one stream: the upstream delivers
`chunks` and then either ends cleanly (`transportError = none`) or the
connection fails (`some msg`, e.g. a timeout — any exception raised while
awaiting the next chunk).  On any exception — from the pipeline itself or
from the transport — the generator yields exactly one `errorFrame` after
the frames already emitted and marks the pending request `"error"`; on a
clean end it marks it `"completed"` (and schedules eviction, not modelled
further).  Returns the frames sent to the client and the updated store. -/
def event_generator (locs : Option Json) (chunks : List String)
    (transportError : Option String) (store : SseStore) (rid : String) :
    List String × SseStore :=
  match runChunks locs initState chunks with
  | (fs, _, some e) => (fs ++ [errorFrame e], setStatus store rid "error")
  | (fs, _, none) =>
    match transportError with
    | some e => (fs ++ [errorFrame e], setStatus store rid "error")
    | none => (fs, setStatus store rid "completed")

/-! ## The non-streaming rewrite pass (`intercept_function_calls`)

Both `main.py` copies contain the identical function: a two-branch
`if/elif` over every part of every event, matching `get_current_place`
and `show_place_details` by *name*. -/

/-- The `get_current_place` branch of `intercept_function_calls`:
replace the response with the browser location when one is stored. -/
def gcpReplace (locs : Option Json) (part fr : Json) : Except String Json :=
  if browserAvailable locs then
    match locs with
    | none => Except.ok part
    | some bl =>
      match pyIndex bl "lat" with
      | Except.error e => Except.error e
      | Except.ok lat =>
        match pyIndex bl "lng" with
        | Except.error e => Except.error e
        | Except.ok lng =>
          Except.ok (objSet part "functionResponse"
            (objSet fr "response"
              (newLocationResponse lat lng (objGetD bl "accuracy" (Json.num 0)))))
  else Except.ok part

/-- The `show_place_details` branch of `intercept_function_calls`
(same body as the streaming one; state-free). -/
def spdAugment (part fr : Json) : Except String Json :=
  let resp := objGetD fr "response" (Json.obj [])
  match pyGet resp "status" with
  | Except.error e => Except.error e
  | Except.ok stv =>
    if pyEq stv (Json.str "success") then
      match pyGet resp "location" with
      | Except.error e => Except.error e
      | Except.ok loc =>
        if truthy loc then
          Except.ok (objSet part "functionResponse"
            (objSet fr "response" (objSet resp "ui_action" (Json.str "show_map"))))
        else Except.ok part
    else Except.ok part

/-- One part of one event in `intercept_function_calls`: the two-branch
`if/elif` matching `functionResponse` parts by name. -/
def interceptPart (locs : Option Json) (part : Json) : Except String Json :=
  match pyGet part "functionResponse" with
  | Except.error e => Except.error e
  | Except.ok fr =>
    if truthy fr then
      match pyGet fr "name" with
      | Except.error e => Except.error e
      | Except.ok nm =>
        if pyEq nm (Json.str "get_current_place") then gcpReplace locs part fr
        else if pyEq nm (Json.str "show_place_details") then spdAugment part fr
        else Except.ok part
    else Except.ok part

/-- The part loop of `intercept_function_calls` over one event. -/
def interceptParts (locs : Option Json) : List Json → Except String (List Json)
  | [] => Except.ok []
  | p :: ps =>
    match interceptPart locs p with
    | Except.error e => Except.error e
    | Except.ok p1 =>
      match interceptParts locs ps with
      | Except.error e => Except.error e
      | Except.ok ps1 => Except.ok (p1 :: ps1)

/-- One event of `intercept_function_calls`: skipped (unchanged) unless
it is a dict with truthy `content` and truthy `content["parts"]`. -/
def interceptEvent (locs : Option Json) (event : Json) : Except String Json :=
  match event with
  | Json.obj _ =>
    let content := objGetD event "content" Json.null
    if truthy content then
      match pyGet content "parts" with
      | Except.error e => Except.error e
      | Except.ok parts =>
        if truthy parts then
          match parts with
          | Json.arr ps =>
            match interceptParts locs ps with
            | Except.error e => Except.error e
            | Except.ok ps1 =>
              Except.ok (objSet event "content"
                (objSet content "parts" (Json.arr ps1)))
          | _ => Except.error "TypeError"
        else Except.ok event
    else Except.ok event
  | other => Except.ok other

/-- The event loop of `intercept_function_calls`. -/
def interceptEvents (locs : Option Json) : List Json → Except String (List Json)
  | [] => Except.ok []
  | ev :: evs =>
    match interceptEvent locs ev with
    | Except.error e => Except.error e
    | Except.ok ev1 =>
      match interceptEvents locs evs with
      | Except.error e => Except.error e
      | Except.ok evs1 => Except.ok (ev1 :: evs1)

/-- Top level of `intercept_function_calls(response_data)`: non-list input is returned
unchanged; a list has every event rewritten in place. -/
def intercept_function_calls (locs : Option Json) (response_data : Json) :
    Except String Json :=
  match response_data with
  | Json.arr events =>
    match interceptEvents locs events with
    | Except.error e => Except.error e
    | Except.ok evs => Except.ok (Json.arr evs)
  | other => Except.ok other

/-! ## Concrete test vectors

Concrete streams and payloads used to exercise the definitions above (the
shapes produced by the upstream agent server: events whose `content.parts`
carry `functionCall` / `functionResponse` members). -/

/-- A stored browser location (as posted by the frontend). -/
def cLocs : Option Json := some (Json.obj [("lat", Json.num 25), ("lng", Json.num 121)])

/-- An event carrying a `get_current_place` function call with id `"f1"`. -/
def vCall : Json :=
  Json.obj [("content", Json.obj [("parts", Json.arr
    [Json.obj [("functionCall", Json.obj
      [("name", Json.str "get_current_place"), ("id", Json.str "f1")])]])])]

/-- The function-response object answering call `"f1"`. -/
def vRespFr : List (String × Json) :=
  [("name", Json.str "get_current_place"), ("id", Json.str "f1"),
   ("response", Json.obj [("status", Json.str "ok")])]

/-- An event carrying the upstream `get_current_place` response. -/
def vResp : Json :=
  Json.obj [("content", Json.obj [("parts", Json.arr
    [Json.obj [("functionResponse", Json.obj vRespFr)]])])]

/-- The event `vResp` after the browser-location substitution. -/
def vRespSub : Json :=
  Json.obj [("content", Json.obj [("parts", Json.arr
    [Json.obj [("functionResponse", Json.obj
      [("name", Json.str "get_current_place"), ("id", Json.str "f1"),
       ("response", newLocationResponse (Json.num 25) (Json.num 121) (Json.num 0))])]])])]

/-- The call event as one SSE chunk. -/
def cCallChunk : String := "data: " ++ jsonDumps vCall ++ "\n\n"

/-- The response event as one SSE chunk. -/
def cRespChunk : String := "data: " ++ jsonDumps vResp ++ "\n\n"

/-- The frame emitted for the substituted response event. -/
def cSubstFrame : String := "data: " ++ jsonDumps vRespSub ++ "\n\n"

/-- A compactly-serialized response event (no spaces after `:` and `,`,
the usual form on the wire) matching call id `"f1"`. -/
def c3CompactPayload : String :=
  "\x7b\"content\":\x7b\"parts\":[\x7b\"functionResponse\":\x7b\"id\":\"f1\",\"response\":\x7b\x7d\x7d\x7d]\x7d\x7d"

/-- The compact response event as one SSE chunk. -/
def c3Chunk : String := "data: " ++ c3CompactPayload ++ "\n\n"

/-- The decoded value of `c3CompactPayload`. -/
def vC3 : Json :=
  Json.obj [("content", Json.obj [("parts", Json.arr
    [Json.obj [("functionResponse", Json.obj
      [("id", Json.str "f1"), ("response", Json.obj [])])]])])]

/-- The frame the proxy emits for `c3Chunk` when no browser location is
stored (the payload is re-serialized with default separators). -/
def c3Emitted : String := "data: " ++ jsonDumps vC3 ++ "\n\n"

/-- A `show_place_details` response part whose `location` is present and
non-null but falsy (the empty object). -/
def c4Part : Json :=
  Json.obj [("functionResponse", Json.obj
    [("name", Json.str "show_place_details"),
     ("response", Json.obj
       [("status", Json.str "success"), ("location", Json.obj [])])])]

/-- A pending-request store holding one entry in state `"pending"`. -/
def c5Store0 : SseStore := [("r1", { payload := Json.null, status := "pending" })]

/-- The same store after a first connect moved the entry to `"in-progress"`. -/
def c5Store1 : SseStore := [("r1", { payload := Json.null, status := "in-progress" })]

/-- A location report with no `lat` coordinate. -/
def c6Bad : Json := Json.obj [("lng", Json.num 1)]

/-- An events list exercising both rewrite rules (a `get_current_place`
response and an eligible `show_place_details` response). -/
def w8X : Json :=
  Json.arr [Json.obj [("content", Json.obj [("parts", Json.arr
    [Json.obj [("functionResponse", Json.obj
      [("name", Json.str "get_current_place"), ("id", Json.str "f1"),
       ("response", Json.obj [("status", Json.str "ok")])])],
     Json.obj [("functionResponse", Json.obj
      [("name", Json.str "show_place_details"),
       ("response", Json.obj [("status", Json.str "success"),
         ("location", Json.obj [("lat", Json.num 25)])])])]])])]]

/-- The list `w8X` after one pass of the rewrite (both rules applied). -/
def w8Y : Json :=
  Json.arr [Json.obj [("content", Json.obj [("parts", Json.arr
    [Json.obj [("functionResponse", Json.obj
      [("name", Json.str "get_current_place"), ("id", Json.str "f1"),
       ("response", newLocationResponse (Json.num 25) (Json.num 121) (Json.num 0))])],
     Json.obj [("functionResponse", Json.obj
      [("name", Json.str "show_place_details"),
       ("response", Json.obj [("status", Json.str "success"),
         ("location", Json.obj [("lat", Json.num 25)]),
         ("ui_action", Json.str "show_map")])])]])])]]

/-- A truthy but non-dict browser slot: reading `browser_loc["lat"]` from
it raises `TypeError` inside the generator. -/
def c9Locs : Option Json := some (Json.str "x")

/-- The correlator state after observing the `"f1"` call. -/
def stAfterCall : CorrState := { detected := true, currentId := Json.str "f1" }

/-- A `functionResponse` object named `show_place_details` that also
carries the armed call id `"f1"` and an augmentation-eligible response. -/
def c10Frf : List (String × Json) :=
  [("name", Json.str "show_place_details"), ("id", Json.str "f1"),
   ("response", Json.obj [("status", Json.str "success"),
     ("location", Json.obj [("lat", Json.num 1)])])]

/-- The part holding `c10Frf`. -/
def c10Part : List (String × Json) := [("functionResponse", Json.obj c10Frf)]

/-! ## Association-list lemmas -/

theorem lookupField_setField_self (fs : List (String × Json)) (k : String) (v : Json) :
    lookupField (setField fs k v) k = some v := by
  induction fs with
  | nil => simp [setField, lookupField]
  | cons kv rest ih =>
    obtain ⟨k0, v0⟩ := kv
    by_cases h : k0 = k
    · simp [setField, lookupField, h]
    · simp [setField, lookupField, h, ih]

theorem lookupField_setField_ne (fs : List (String × Json)) (k k' : String) (v : Json)
    (h : k' ≠ k) : lookupField (setField fs k v) k' = lookupField fs k' := by
  have h2 : ¬k = k' := fun hh => h hh.symm
  induction fs with
  | nil => simp [setField, lookupField, h2]
  | cons kv rest ih =>
    obtain ⟨k0, v0⟩ := kv
    by_cases h0 : k0 = k
    · subst h0
      simp [setField, lookupField, h2]
    · simp [setField, lookupField, h0, ih]

theorem setField_setField_self (fs : List (String × Json)) (k : String) (v w : Json) :
    setField (setField fs k v) k w = setField fs k w := by
  induction fs with
  | nil => simp [setField]
  | cons kv rest ih =>
    obtain ⟨k0, v0⟩ := kv
    by_cases h : k0 = k
    · simp [setField, h]
    · simp [setField, h, ih]

theorem setField_eq_of_lookup (fs : List (String × Json)) (k : String) (v : Json)
    (h : lookupField fs k = some v) : setField fs k v = fs := by
  induction fs with
  | nil => simp [lookupField] at h
  | cons kv rest ih =>
    obtain ⟨k0, v0⟩ := kv
    by_cases h0 : k0 = k
    · subst h0
      simp [lookupField] at h
      simp [setField, h]
    · simp [lookupField, h0] at h
      simp [setField, h0, ih h]

theorem setField_isEmpty (fs : List (String × Json)) (k : String) (v : Json) :
    (setField fs k v).isEmpty = false := by
  cases fs with
  | nil => simp [setField]
  | cons kv rest =>
    obtain ⟨k0, v0⟩ := kv
    by_cases h : k0 = k <;> simp [setField, h]

theorem truthy_objSet (fs : List (String × Json)) (k : String) (v : Json) :
    truthy (objSet (Json.obj fs) k v) = true := by
  simp [objSet, truthy, setField_isEmpty]

/-! ## No serialized payload contains a newline

`json.dumps` output never contains a raw newline (newlines inside strings
are escaped), so an encoded frame `data: <json>\n\n` carries exactly one
blank-line terminator. -/

/-- Whether a string contains a raw newline character. -/
def hasNL (s : String) : Bool := s.data.any (fun c => c = '\n')

theorem strData_append (a b : String) : (a ++ b).data = a.data ++ b.data := by
  cases a; cases b; rfl

theorem hasNL_append (a b : String) : hasNL (a ++ b) = (hasNL a || hasNL b) := by
  simp [hasNL, strData_append]

theorem anyNL_flatten (L : List (List Char)) (p : Char → Bool) :
    L.flatten.any p = L.any (fun l => l.any p) := by
  induction L with
  | nil => simp
  | cons l rest ih => simp [ih]

theorem anyNL_replicate (n : Nat) (c : Char) (p : Char → Bool) (h : p c = false) :
    (List.replicate n c).any p = false := by
  induction n with
  | zero => simp
  | succ m ih => simp [List.replicate, h, ih]

theorem digitChar10_ne_nl (d : Nat) : digitChar10 d ≠ '\n' := by
  unfold digitChar10
  split <;> decide

theorem hexDigitChar_ne_nl (d : Nat) : hexDigitChar d ≠ '\n' := by
  unfold hexDigitChar
  split <;> decide

theorem natDigits_noNL (fuel n : Nat) :
    (natDigits fuel n).any (fun c => c = '\n') = false := by
  induction fuel generalizing n with
  | zero => simp [natDigits]
  | succ f ih =>
    unfold natDigits
    split
    · simp [digitChar10_ne_nl]
    · simp [ih, digitChar10_ne_nl]

theorem intChars_noNL (i : Int) : (intChars i).any (fun c => c = '\n') = false := by
  unfold intChars
  split <;> simp [natChars, natDigits_noNL]

theorem numChars_noNL (q : Rat) : (numChars q).any (fun c => c = '\n') = false := by
  unfold numChars
  split
  · exact intChars_noNL q.num
  · split
    · split <;>
        simp [natChars, natDigits_noNL, anyNL_replicate, intChars_noNL]
    · simp [natChars, natDigits_noNL, intChars_noNL]

theorem escChar_noNL (c : Char) : (escChar c).any (fun ch => ch = '\n') = false := by
  unfold escChar
  split
  · decide
  · split
    · decide
    · split
      · decide
      · split
        · decide
        · split
          · decide
          · split
            · decide
            · split
              · decide
              · split
                · simp [hexDigitChar_ne_nl]
                · rename_i h1 h2 h3 h4 h5 h6 h7 h8
                  simp only [List.any_cons, List.any_nil, Bool.or_false]
                  simp only [Bool.or_eq_true, decide_eq_true_eq, not_or] at h8
                  have : ¬c = '\n' := by
                    intro hc
                    subst hc
                    exact absurd (by decide : Char.toNat '\n' < 32) h8.1
                  simp [this]

theorem dumpStr_noNL (s : String) : hasNL (dumpStr s) = false := by
  simp only [dumpStr, hasNL]
  simp only [List.any_cons, List.any_append, List.any_nil, anyNL_flatten]
  simp [List.any_map, Function.comp, escChar_noNL]
  intro a _ hmem
  have h := escChar_noNL a
  rw [List.any_eq_false] at h
  exact h _ hmem (by simp)

theorem dumpListWith_noNL (d : Json → String) (hd : ∀ j, hasNL (d j) = false)
    (xs : List Json) : hasNL (dumpListWith d xs) = false := by
  induction xs with
  | nil => rfl
  | cons x rest ih =>
    cases rest with
    | nil => simp [dumpListWith, hd]
    | cons y rest2 =>
      simp only [dumpListWith] at ih ⊢
      simp [hasNL_append, hd, ih]
      decide

theorem dumpFieldsWith_noNL (d : Json → String) (hd : ∀ j, hasNL (d j) = false)
    (fs : List (String × Json)) : hasNL (dumpFieldsWith d fs) = false := by
  induction fs with
  | nil => rfl
  | cons kv rest ih =>
    obtain ⟨k, v⟩ := kv
    cases rest with
    | nil =>
      simp [dumpFieldsWith, hasNL_append, hd, dumpStr_noNL]
      decide
    | cons kv2 rest2 =>
      simp only [dumpFieldsWith] at ih ⊢
      simp [hasNL_append, hd, ih, dumpStr_noNL]
      decide

theorem dumpFuel_noNL (fuel : Nat) (j : Json) : hasNL (dumpFuel fuel j) = false := by
  induction fuel generalizing j with
  | zero => rfl
  | succ f ih =>
    cases j with
    | null => rfl
    | bool b => cases b <;> rfl
    | num q => simpa [dumpFuel, hasNL] using numChars_noNL q
    | str s => exact dumpStr_noNL s
    | arr xs =>
      simp [dumpFuel, hasNL_append, dumpListWith_noNL (dumpFuel f) ih xs]
      decide
    | obj fs =>
      simp [dumpFuel, hasNL_append, dumpFieldsWith_noNL (dumpFuel f) ih fs]
      decide

theorem jsonDumps_noNL (j : Json) : hasNL (jsonDumps j) = false :=
  dumpFuel_noNL (jsize j) j

/-! ## Frame-accounting lemmas for the chunk loop -/

theorem processChunk_ok_length (locs : Option Json) (st : CorrState) (c : String)
    (st1 : CorrState) (fs : List String)
    (h : processChunk locs st c = Except.ok (st1, fs)) :
    fs.length = if isBlank c then 0 else 1 := by
  unfold processChunk at h
  split at h
  next hb =>
    simp only [Except.ok.injEq, Prod.mk.injEq] at h
    simp [hb, ← h.2]
  next hb =>
    split at h
    · split at h
      · split at h
        · simp at h
        · simp only [Except.ok.injEq, Prod.mk.injEq] at h
          simp [hb, ← h.2]
      · simp only [Except.ok.injEq, Prod.mk.injEq] at h
        simp [hb, ← h.2]
    · simp only [Except.ok.injEq, Prod.mk.injEq] at h
      simp [hb, ← h.2]

theorem runChunks_clean_length (locs : Option Json) (st : CorrState)
    (cs : List String) (fs : List String) (st1 : CorrState)
    (h : runChunks locs st cs = (fs, st1, none)) :
    fs.length = (cs.filter (fun c => !isBlank c)).length := by
  induction cs generalizing st fs with
  | nil =>
    simp only [runChunks, Prod.mk.injEq] at h
    simp [← h.1]
  | cons c rest ih =>
    cases hpc : processChunk locs st c with
    | error e =>
      rw [runChunks, hpc] at h
      simp at h
    | ok p =>
      obtain ⟨st2, f1⟩ := p
      rw [runChunks, hpc] at h
      dsimp only at h
      cases hrc : runChunks locs st2 rest with
      | mk rf rtail =>
        obtain ⟨rst, rerr⟩ := rtail
        rw [hrc] at h
        simp only [Prod.mk.injEq] at h
        obtain ⟨hfs, hst, herr⟩ := h
        subst herr
        subst hst
        have hlen := ih st2 rf hrc
        have hc := processChunk_ok_length locs st c st2 f1 hpc
        subst hfs
        rw [List.length_append, List.filter_cons]
        by_cases hb : isBlank c
        · rw [if_pos hb] at hc
          rw [if_neg (by simp [hb])]
          omega
        · rw [if_neg hb] at hc
          rw [if_pos (by simp [hb])]
          rw [List.length_cons]
          omega

theorem runChunks_append (locs : Option Json) (st : CorrState)
    (cs1 cs2 : List String) (fs : List String) (st1 : CorrState)
    (h : runChunks locs st cs1 = (fs, st1, none)) :
    runChunks locs st (cs1 ++ cs2) =
      (fs ++ (runChunks locs st1 cs2).1, (runChunks locs st1 cs2).2) := by
  induction cs1 generalizing st fs with
  | nil =>
    simp only [runChunks, Prod.mk.injEq] at h
    obtain ⟨h1, h2, _⟩ := h
    subst h1; subst h2
    simp
  | cons c rest ih =>
    cases hpc : processChunk locs st c with
    | error e =>
      rw [runChunks, hpc] at h
      simp at h
    | ok p =>
      obtain ⟨st2, f1⟩ := p
      rw [runChunks, hpc] at h
      dsimp only at h
      cases hrc : runChunks locs st2 rest with
      | mk rf rtail =>
        obtain ⟨rst, rerr⟩ := rtail
        rw [hrc] at h
        simp only [Prod.mk.injEq] at h
        obtain ⟨hfs, hst, herr⟩ := h
        subst herr; subst hst
        have hrec := ih st2 rf hrc
        rw [List.cons_append, runChunks, hpc]
        dsimp only
        rw [hrec]
        simp [← hfs]

/-! ## Idempotence of the non-streaming rewrite pass -/

theorem objSet_objSet_self (fs : List (String × Json)) (k : String) (v w : Json) :
    objSet (objSet (Json.obj fs) k v) k w = objSet (Json.obj fs) k w := by
  simp [objSet, setField_setField_self]

theorem interceptPart_idem (locs : Option Json) (p q : Json)
    (h : interceptPart locs p = Except.ok q) :
    interceptPart locs q = Except.ok q := by
  cases p with
  | null => simp [interceptPart, pyGet] at h
  | bool b => simp [interceptPart, pyGet] at h
  | num n => simp [interceptPart, pyGet] at h
  | str s => simp [interceptPart, pyGet] at h
  | arr xs => simp [interceptPart, pyGet] at h
  | obj pf =>
    simp only [interceptPart, pyGet] at h
    generalize hfr : (lookupField pf "functionResponse").getD Json.null = fr at h
    by_cases htr : truthy fr = true
    case neg =>
      rw [if_neg htr] at h
      simp only [Except.ok.injEq] at h
      subst h
      simp only [interceptPart, pyGet, hfr]
      rw [if_neg htr]
    case pos =>
      rw [if_pos htr] at h
      cases fr with
      | null => simp [pyGet] at h
      | bool b => simp [pyGet] at h
      | num n => simp [pyGet] at h
      | str s => simp [pyGet] at h
      | arr xs => simp [pyGet] at h
      | obj frf =>
        simp only [pyGet] at h
        generalize hnm : (lookupField frf "name").getD Json.null = nm at h
        by_cases hg : pyEq nm (Json.str "get_current_place") = true
        case pos =>
          rw [if_pos hg] at h
          unfold gcpReplace at h
          by_cases hba : browserAvailable locs = true
          case neg =>
            rw [if_neg hba] at h
            simp only [Except.ok.injEq] at h
            subst h
            simp only [interceptPart, pyGet, hfr]
            rw [if_pos htr]
            simp only [pyGet, hnm]
            rw [if_pos hg]
            unfold gcpReplace
            rw [if_neg hba]
          case pos =>
            rw [if_pos hba] at h
            cases locs with
            | none => simp [browserAvailable] at hba
            | some bl =>
              dsimp only at h
              cases hlat : pyIndex bl "lat" with
              | error e => rw [hlat] at h; simp at h
              | ok lat =>
                rw [hlat] at h
                dsimp only at h
                cases hlng : pyIndex bl "lng" with
                | error e => rw [hlng] at h; simp at h
                | ok lng =>
                  rw [hlng] at h
                  simp only [Except.ok.injEq] at h
                  subst h
                  simp only [interceptPart, objSet, pyGet,
                    lookupField_setField_self, Option.getD_some]
                  rw [if_pos (by simp [truthy, setField_isEmpty])]
                  rw [lookupField_setField_ne frf "response" "name" _ (by decide), hnm]
                  rw [if_pos hg]
                  unfold gcpReplace
                  rw [if_pos hba]
                  dsimp only
                  rw [hlat]
                  dsimp only
                  rw [hlng]
                  simp only [objSet, setField_setField_self, Except.ok.injEq]
        case neg =>
          by_cases hs : pyEq nm (Json.str "show_place_details") = true
          case neg =>
            rw [if_neg hg, if_neg hs] at h
            simp only [Except.ok.injEq] at h
            subst h
            simp only [interceptPart, pyGet, hfr]
            rw [if_pos htr]
            simp only [pyGet, hnm]
            rw [if_neg hg, if_neg hs]
          case pos =>
            rw [if_neg hg, if_pos hs] at h
            unfold spdAugment at h
            generalize hresp : objGetD (Json.obj frf) "response" (Json.obj []) = resp at h
            cases resp with
            | null => simp [pyGet] at h
            | bool b => simp [pyGet] at h
            | num n => simp [pyGet] at h
            | str s => simp [pyGet] at h
            | arr xs => simp [pyGet] at h
            | obj rs =>
              simp only [pyGet] at h
              generalize hstv : (lookupField rs "status").getD Json.null = stv at h
              by_cases hsc : pyEq stv (Json.str "success") = true
              case neg =>
                rw [if_neg hsc] at h
                simp only [Except.ok.injEq] at h
                subst h
                simp only [interceptPart, pyGet, hfr]
                rw [if_pos htr]
                simp only [pyGet, hnm]
                rw [if_neg hg, if_pos hs]
                unfold spdAugment
                rw [hresp]
                simp only [pyGet, hstv]
                rw [if_neg hsc]
              case pos =>
                rw [if_pos hsc] at h
                generalize hloc : (lookupField rs "location").getD Json.null = loc at h
                by_cases hlt : truthy loc = true
                case neg =>
                  rw [if_neg hlt] at h
                  simp only [Except.ok.injEq] at h
                  subst h
                  simp only [interceptPart, pyGet, hfr]
                  rw [if_pos htr]
                  simp only [pyGet, hnm]
                  rw [if_neg hg, if_pos hs]
                  unfold spdAugment
                  rw [hresp]
                  simp only [pyGet, hstv, hloc]
                  rw [if_pos hsc, if_neg hlt]
                case pos =>
                  rw [if_pos hlt] at h
                  simp only [Except.ok.injEq] at h
                  subst h
                  simp only [interceptPart, objSet, pyGet,
                    lookupField_setField_self, Option.getD_some]
                  rw [if_pos (by simp [truthy, setField_isEmpty])]
                  rw [lookupField_setField_ne frf "response" "name" _ (by decide), hnm]
                  rw [if_neg hg, if_pos hs]
                  unfold spdAugment
                  simp only [objGetD, lookupField_setField_self, Option.getD_some]
                  simp only [pyGet]
                  rw [lookupField_setField_ne rs "ui_action" "status" _ (by decide), hstv]
                  rw [if_pos hsc]
                  rw [lookupField_setField_ne rs "ui_action" "location" _ (by decide), hloc]
                  rw [if_pos hlt]
                  simp only [objSet, setField_setField_self, Except.ok.injEq]

theorem interceptParts_idem (locs : Option Json) (ps qs : List Json)
    (h : interceptParts locs ps = Except.ok qs) :
    interceptParts locs qs = Except.ok qs := by
  induction ps generalizing qs with
  | nil =>
    simp only [interceptParts, Except.ok.injEq] at h
    subst h
    rfl
  | cons p rest ih =>
    cases hp : interceptPart locs p with
    | error e => rw [interceptParts, hp] at h; simp at h
    | ok p1 =>
      rw [interceptParts, hp] at h
      dsimp only at h
      cases hr : interceptParts locs rest with
      | error e => rw [hr] at h; simp at h
      | ok rest1 =>
        rw [hr] at h
        simp only [Except.ok.injEq] at h
        subst h
        rw [interceptParts, interceptPart_idem locs p p1 hp]
        dsimp only
        rw [ih rest1 hr]

theorem interceptParts_length (locs : Option Json) (ps qs : List Json)
    (h : interceptParts locs ps = Except.ok qs) : qs.length = ps.length := by
  induction ps generalizing qs with
  | nil =>
    simp only [interceptParts, Except.ok.injEq] at h
    subst h
    rfl
  | cons p rest ih =>
    cases hp : interceptPart locs p with
    | error e => rw [interceptParts, hp] at h; simp at h
    | ok p1 =>
      rw [interceptParts, hp] at h
      dsimp only at h
      cases hr : interceptParts locs rest with
      | error e => rw [hr] at h; simp at h
      | ok rest1 =>
        rw [hr] at h
        simp only [Except.ok.injEq] at h
        subst h
        simp [ih rest1 hr]

theorem interceptEvent_idem (locs : Option Json) (ev ev1 : Json)
    (h : interceptEvent locs ev = Except.ok ev1) :
    interceptEvent locs ev1 = Except.ok ev1 := by
  cases ev with
  | obj ef =>
    simp only [interceptEvent, objGetD] at h
    generalize hco : (lookupField ef "content").getD Json.null = content at h
    by_cases htc : truthy content = true
    case neg =>
      rw [if_neg htc] at h
      simp only [Except.ok.injEq] at h
      subst h
      simp only [interceptEvent, objGetD, hco]
      rw [if_neg htc]
    case pos =>
      rw [if_pos htc] at h
      cases content with
      | null => simp [pyGet] at h
      | bool b => simp [pyGet] at h
      | num n => simp [pyGet] at h
      | str s => simp [pyGet] at h
      | arr xs => simp [pyGet] at h
      | obj cf =>
        simp only [pyGet] at h
        generalize hpt : (lookupField cf "parts").getD Json.null = parts at h
        by_cases htp : truthy parts = true
        case neg =>
          rw [if_neg htp] at h
          simp only [Except.ok.injEq] at h
          subst h
          simp only [interceptEvent, objGetD, hco]
          rw [if_pos htc]
          simp only [pyGet, hpt]
          rw [if_neg htp]
        case pos =>
          rw [if_pos htp] at h
          cases parts with
          | null => simp [truthy] at htp
          | bool b => simp at h
          | num n => simp at h
          | str s => simp at h
          | obj fs2 => simp at h
          | arr ps =>
            dsimp only at h
            cases hps : interceptParts locs ps with
            | error e => rw [hps] at h; simp at h
            | ok ps1 =>
              rw [hps] at h
              simp only [Except.ok.injEq] at h
              subst h
              have htp1 : truthy (Json.arr ps1) = true := by
                have hlen := interceptParts_length locs ps ps1 hps
                cases ps with
                | nil => simp [truthy] at htp
                | cons a b =>
                  cases ps1 with
                  | nil => simp at hlen
                  | cons c d => simp [truthy]
              simp only [interceptEvent, objSet, objGetD,
                lookupField_setField_self, Option.getD_some]
              rw [if_pos (by simp [truthy, setField_isEmpty])]
              simp only [pyGet, lookupField_setField_self, Option.getD_some]
              rw [if_pos htp1]
              try dsimp only
              rw [interceptParts_idem locs ps ps1 hps]
              try dsimp only
              simp only [objSet, setField_setField_self, Except.ok.injEq]
  | null => simp only [interceptEvent, Except.ok.injEq] at h; subst h; rfl
  | bool b => simp only [interceptEvent, Except.ok.injEq] at h; subst h; rfl
  | num n => simp only [interceptEvent, Except.ok.injEq] at h; subst h; rfl
  | str s => simp only [interceptEvent, Except.ok.injEq] at h; subst h; rfl
  | arr xs => simp only [interceptEvent, Except.ok.injEq] at h; subst h; rfl

theorem interceptEvents_idem (locs : Option Json) (evs evs1 : List Json)
    (h : interceptEvents locs evs = Except.ok evs1) :
    interceptEvents locs evs1 = Except.ok evs1 := by
  induction evs generalizing evs1 with
  | nil =>
    simp only [interceptEvents, Except.ok.injEq] at h
    subst h
    rfl
  | cons ev rest ih =>
    cases hp : interceptEvent locs ev with
    | error e => rw [interceptEvents, hp] at h; simp at h
    | ok ev1 =>
      rw [interceptEvents, hp] at h
      dsimp only at h
      cases hr : interceptEvents locs rest with
      | error e => rw [hr] at h; simp at h
      | ok rest1 =>
        rw [hr] at h
        simp only [Except.ok.injEq] at h
        subst h
        rw [interceptEvents, interceptEvent_idem locs ev ev1 hp]
        dsimp only
        rw [ih rest1 hr]

/-! ## String-prefix and store helpers -/

theorem strMk_data (s : String) : String.mk s.data = s := rfl

theorem dataPrefix_notBlank (t : String) : isBlank ("data: " ++ t) = false := by
  rw [isBlank, strData_append, List.all_append]
  have h : "data: ".data.all isJsonWs = false := by decide
  rw [h, Bool.false_and]

theorem dataPrefix_isPrefixOf (t : String) :
    "data: ".data.isPrefixOf (("data: " ++ t) : String).data = true := by
  rw [strData_append, List.isPrefixOf_iff_prefix]
  exact List.prefix_append _ _

theorem dataPrefix_drop6 (t : String) :
    (("data: " ++ t) : String).data.drop 6 = t.data := by
  rw [strData_append]
  have h := List.drop_left "data: ".data t.data
  have h2 : "data: ".data.length = 6 := by decide
  rw [h2] at h
  exact h

theorem lookupStore_setStatus (store : SseStore) (rid s : String) :
    lookupStore (setStatus store rid s) rid =
      (lookupStore store rid).map (fun e => { e with status := s }) := by
  induction store with
  | nil => rfl
  | cons kv rest ih =>
    obtain ⟨k, e⟩ := kv
    by_cases h : k = rid
    · simp [setStatus, lookupStore, h]
    · simp [setStatus, lookupStore, h, ih]

set_option maxRecDepth 100000

/-! ## The claims -/

/-- C1 (corrected).  The chunk loop performs no reassembly: every
non-whitespace chunk yields exactly one output frame (conjunct 1), and
only an event that arrives as one single chunk is decoded into one data
frame carrying its (possibly rewritten) payload (conjunct 2).  An event
split across `n ≥ 2` non-blank chunks therefore produces `n` frames, so
chunk boundaries are visible in the output. -/
theorem c1_chunking_not_transparent :
    (∀ locs st cs fs st1,
      runChunks locs st cs = (fs, st1, none) →
      fs.length = (cs.filter (fun c => !isBlank c)).length) ∧
    (∀ locs st p v st1 v1,
      jsonParse (p ++ "\n\n") = some v →
      processData locs st v = Except.ok (st1, v1) →
      processChunk locs st ("data: " ++ (p ++ "\n\n")) =
        Except.ok (st1, ["data: " ++ jsonDumps v1 ++ "\n\n"])) := by
  constructor
  · exact fun locs st cs fs st1 h => runChunks_clean_length locs st cs fs st1 h
  · intro locs st p v st1 v1 hp hd
    have hb := dataPrefix_notBlank (p ++ "\n\n")
    rw [processChunk, if_neg (by simp [hb]), if_pos (dataPrefix_isPrefixOf (p ++ "\n\n"))]
    rw [dataPrefix_drop6, strMk_data, hp]
    dsimp only
    rw [hd]

/-- C1 witness: a clean two-chunk run has one frame per chunk, and the
call event delivered as a single chunk decodes to one data frame. -/
theorem c1_witness :
    (runChunks none initState [cCallChunk, cRespChunk]).1.length =
      ([cCallChunk, cRespChunk].filter (fun c => !isBlank c)).length ∧
    processChunk none initState ("data: " ++ (jsonDumps vCall ++ "\n\n")) =
      Except.ok (stAfterCall, ["data: " ++ jsonDumps vCall ++ "\n\n"]) :=
  ⟨c1_chunking_not_transparent.1 none initState [cCallChunk, cRespChunk] _ _ rfl,
   c1_chunking_not_transparent.2 none initState (jsonDumps vCall) vCall stAfterCall vCall
     rfl rfl⟩

/-- C1 counterexample: the event `data: {}\n\n` split at byte offset 3
produces two pass-through frames, not one data frame with the original
payload — chunk boundaries are not invisible. -/
theorem c1_counterexample :
    (runChunks none initState ["dat", "a: \x7b\x7d\n\n"]).1 =
      ["dat\n\n", "a: \x7b\x7d\n\n\n\n"] ∧
    (["dat\n\n", "a: \x7b\x7d\n\n\n\n"] : List String).length ≠ 1 :=
  ⟨rfl, by decide⟩

/-- C2 (corrected).  The correlator records the id of every
`get_current_place` function-call part and arms itself (conjunct 1, a
later call overwriting the state unconditionally), and hands a matched
function-response to the substitution branch while armed (conjunct 2) —
but it never clears `function_call_detected`: the substitution branch
returns the state unchanged (conjunct 3), so a later response carrying
the same identifier is substituted again. -/
theorem c2_correlator_amended :
    (∀ locs st pf fcf,
      lookupField pf "functionCall" = some (Json.obj fcf) →
      truthy (Json.obj fcf) = true →
      lookupField fcf "name" = some (Json.str "get_current_place") →
      processPart locs st (Json.obj pf) =
        Except.ok ((⟨true, (lookupField fcf "id").getD Json.null⟩ : CorrState),
          Json.obj pf)) ∧
    (∀ locs st pf frf,
      st.detected = true →
      lookupField pf "functionCall" = none →
      lookupField pf "functionResponse" = some (Json.obj frf) →
      truthy (Json.obj frf) = true →
      pyEq ((lookupField frf "id").getD Json.null) st.currentId = true →
      processPart locs st (Json.obj pf) =
        substituteLocation locs st (Json.obj pf) (Json.obj frf)) ∧
    (∀ locs st part fr r,
      substituteLocation locs st part fr = Except.ok r → r.1 = st) := by
  refine ⟨?_, ?_, ?_⟩
  · intro locs st pf fcf hfc htr hnm
    have hgg : pyEq (Json.str "get_current_place")
        (Json.str "get_current_place") = true := by decide
    simp only [processPart, pyGet, objGetD, hfc, Option.getD_some, htr, if_true,
      hnm, hgg]
  · intro locs st pf frf hdet hfc hfr htr hid
    have hnull : truthy Json.null = false := rfl
    simp only [processPart, processPartResp, pyGet, hfc, Option.getD_none,
      hnull, Bool.false_eq_true, if_false, hfr, Option.getD_some, htr, if_true,
      hdet, hid]
  · intro locs st part fr r h
    unfold substituteLocation at h
    split at h
    · split at h
      · simp only [Except.ok.injEq] at h
        subst h
        rfl
      · split at h
        · simp at h
        · split at h
          · simp at h
          · simp only [Except.ok.injEq] at h
            subst h
            rfl
    · simp only [Except.ok.injEq] at h
      subst h
      rfl

/-- C2 witness: on the `"f1"` call part the state becomes armed with id
`"f1"`; the matched response part is handed to the substitution branch;
the substitution branch leaves the state armed. -/
theorem c2_witness :
    processPart cLocs initState (Json.obj [("functionCall", Json.obj
        [("name", Json.str "get_current_place"), ("id", Json.str "f1")])]) =
      Except.ok (stAfterCall, Json.obj [("functionCall", Json.obj
        [("name", Json.str "get_current_place"), ("id", Json.str "f1")])]) ∧
    processPart cLocs stAfterCall (Json.obj [("functionResponse", Json.obj vRespFr)]) =
      substituteLocation cLocs stAfterCall
        (Json.obj [("functionResponse", Json.obj vRespFr)]) (Json.obj vRespFr) ∧
    ((stAfterCall, objSet (Json.obj [("functionResponse", Json.obj vRespFr)])
        "functionResponse" (objSet (Json.obj vRespFr) "response"
          (newLocationResponse (Json.num 25) (Json.num 121) (Json.num 0)))) :
        CorrState × Json).1 = stAfterCall :=
  ⟨c2_correlator_amended.1 cLocs initState
      [("functionCall", Json.obj [("name", Json.str "get_current_place"),
        ("id", Json.str "f1")])]
      [("name", Json.str "get_current_place"), ("id", Json.str "f1")] rfl rfl rfl,
   c2_correlator_amended.2.1 cLocs stAfterCall
      [("functionResponse", Json.obj vRespFr)] vRespFr rfl rfl rfl rfl rfl,
   c2_correlator_amended.2.2 cLocs stAfterCall
      (Json.obj [("functionResponse", Json.obj vRespFr)]) (Json.obj vRespFr) _ rfl⟩

/-- C2 counterexample: with a browser location stored, the stream
`call f1, response f1, response f1` has *both* responses substituted
(the third frame equals the substituted second frame and differs from
the unsubstituted re-encoding), refuting "a subsequent function-response
carrying the same identifier is not substituted again". -/
theorem c2_counterexample :
    (runChunks cLocs initState [cCallChunk, cRespChunk, cRespChunk]).1 =
      [cCallChunk, cSubstFrame, cSubstFrame] ∧ cSubstFrame ≠ cRespChunk :=
  ⟨rfl, by decide⟩

/-- C3 (corrected).  When a truthy browser record holding `lat`/`lng` is
stored, the matched response's `response` object is replaced by
`{status: "success", coordinates: {lat, lng}, accuracy (stored or 0),
source: "browser"}` (conjunct 1).  With no browser location stored the
matched part — and hence the decoded payload — is left unchanged
(conjunct 2); the emitted frame is nevertheless re-serialized from the
decoded value, so its bytes may differ from the input frame. -/
theorem c3_rewrite_amended :
    (∀ st part fr blf lat lng,
      truthy (Json.obj blf) = true →
      lookupField blf "lat" = some lat →
      lookupField blf "lng" = some lng →
      substituteLocation (some (Json.obj blf)) st part fr =
        Except.ok (st, objSet part "functionResponse" (objSet fr "response"
          (newLocationResponse lat lng
            ((lookupField blf "accuracy").getD (Json.num 0)))))) ∧
    (∀ locs st pf frf,
      browserAvailable locs = false →
      st.detected = true →
      lookupField pf "functionCall" = none →
      lookupField pf "functionResponse" = some (Json.obj frf) →
      truthy (Json.obj frf) = true →
      pyEq ((lookupField frf "id").getD Json.null) st.currentId = true →
      processPart locs st (Json.obj pf) = Except.ok (st, Json.obj pf)) := by
  constructor
  · intro st part fr blf lat lng htr hlat hlng
    unfold substituteLocation
    rw [if_pos (show browserAvailable (some (Json.obj blf)) = true from htr)]
    simp only [pyIndex]
    rw [hlat]
    dsimp only
    rw [hlng]
    rfl
  · intro locs st pf frf hba hdet hfc hfr htr hid
    have hnull : truthy Json.null = false := rfl
    simp only [processPart, processPartResp, pyGet, hfc, Option.getD_none,
      hnull, Bool.false_eq_true, if_false, hfr, Option.getD_some, htr, if_true,
      hdet, hid]
    unfold substituteLocation
    rw [if_neg (by simp [hba])]

/-- C3 witness: the stored record `{lat: 25, lng: 121}` is substituted
into the matched response; with no record stored the part is unchanged. -/
theorem c3_witness :
    substituteLocation cLocs stAfterCall
        (Json.obj [("functionResponse", Json.obj vRespFr)]) (Json.obj vRespFr) =
      Except.ok (stAfterCall,
        objSet (Json.obj [("functionResponse", Json.obj vRespFr)]) "functionResponse"
          (objSet (Json.obj vRespFr) "response"
            (newLocationResponse (Json.num 25) (Json.num 121)
              ((lookupField [("lat", Json.num 25), ("lng", Json.num 121)]
                "accuracy").getD (Json.num 0))))) ∧
    processPart none stAfterCall (Json.obj [("functionResponse", Json.obj vRespFr)]) =
      Except.ok (stAfterCall, Json.obj [("functionResponse", Json.obj vRespFr)]) :=
  ⟨c3_rewrite_amended.1 stAfterCall
      (Json.obj [("functionResponse", Json.obj vRespFr)]) (Json.obj vRespFr)
      [("lat", Json.num 25), ("lng", Json.num 121)] (Json.num 25) (Json.num 121)
      rfl rfl rfl,
   c3_rewrite_amended.2 none stAfterCall
      [("functionResponse", Json.obj vRespFr)] vRespFr rfl rfl rfl rfl rfl rfl⟩

/-- C3 counterexample: with no browser location stored, a matched
response event arriving compactly serialized is re-emitted with default
`json.dumps` separators — the emitted payload is not byte-identical to
the input. -/
theorem c3_counterexample :
    (runChunks none initState [cCallChunk, c3Chunk]).1 = [cCallChunk, c3Emitted] ∧
    c3Emitted ≠ c3Chunk :=
  ⟨rfl, by decide⟩

/-- C4 (corrected).  A `show_place_details` function-response whose
`response` has `status == "success"` and a *truthy* `location` gets
`response["ui_action"] = "show_map"` added, every other field of the
response and of the part being preserved (conjunct 1).  When the status
is not `"success"` or the location is missing *or falsy* — Python
truthiness, so a present, non-null but empty `location` such as `{}`
also fails the test — the part is returned unchanged (conjunct 2). -/
theorem c4_show_place_details_amended :
    (∀ locs pf frf rs loc,
      lookupField pf "functionResponse" = some (Json.obj frf) →
      truthy (Json.obj frf) = true →
      lookupField frf "name" = some (Json.str "show_place_details") →
      objGetD (Json.obj frf) "response" (Json.obj []) = Json.obj rs →
      lookupField rs "status" = some (Json.str "success") →
      lookupField rs "location" = some loc →
      truthy loc = true →
      interceptPart locs (Json.obj pf) =
        Except.ok (objSet (Json.obj pf) "functionResponse"
          (objSet (Json.obj frf) "response"
            (objSet (Json.obj rs) "ui_action" (Json.str "show_map")))) ∧
      lookupField (setField rs "ui_action" (Json.str "show_map")) "ui_action" =
        some (Json.str "show_map") ∧
      (∀ k, k ≠ "ui_action" →
        lookupField (setField rs "ui_action" (Json.str "show_map")) k =
          lookupField rs k)) ∧
    (∀ locs pf frf rs,
      lookupField pf "functionResponse" = some (Json.obj frf) →
      truthy (Json.obj frf) = true →
      lookupField frf "name" = some (Json.str "show_place_details") →
      objGetD (Json.obj frf) "response" (Json.obj []) = Json.obj rs →
      (pyEq ((lookupField rs "status").getD Json.null) (Json.str "success") = false ∨
        truthy ((lookupField rs "location").getD Json.null) = false) →
      interceptPart locs (Json.obj pf) = Except.ok (Json.obj pf)) := by
  constructor
  · intro locs pf frf rs loc hfr htr hnm hresp hstv hloc hlt
    have hsg : pyEq (Json.str "show_place_details")
        (Json.str "get_current_place") = false := by decide
    have hss : pyEq (Json.str "show_place_details")
        (Json.str "show_place_details") = true := by decide
    have hcc : pyEq (Json.str "success") (Json.str "success") = true := by decide
    refine ⟨?_, lookupField_setField_self rs "ui_action" (Json.str "show_map"),
      fun k hk => lookupField_setField_ne rs "ui_action" k (Json.str "show_map") hk⟩
    simp only [interceptPart, spdAugment, pyGet, hfr, Option.getD_some, htr,
      if_true, hnm, hsg, Bool.false_eq_true, if_false, hss, hresp, hstv, hcc,
      hloc, hlt]
  · intro locs pf frf rs hfr htr hnm hresp hdisj
    have hsg : pyEq (Json.str "show_place_details")
        (Json.str "get_current_place") = false := by decide
    have hss : pyEq (Json.str "show_place_details")
        (Json.str "show_place_details") = true := by decide
    simp only [interceptPart, spdAugment, pyGet, hfr, Option.getD_some, htr,
      if_true, hnm, hsg, Bool.false_eq_true, if_false, hss, hresp]
    cases hdisj with
    | inl hst => rw [if_neg (by simp [hst])]
    | inr hlo =>
      by_cases hst2 : pyEq ((lookupField rs "status").getD Json.null)
          (Json.str "success") = true
      · rw [if_pos hst2, if_neg (by simp [hlo])]
      · rw [if_neg hst2]

/-- C4 witness: a `show_place_details` response with a truthy location
gains `ui_action = "show_map"` with all other fields preserved; one whose
status is not `"success"` is unchanged. -/
theorem c4_witness :
    interceptPart none (Json.obj c10Part) =
      Except.ok (objSet (Json.obj c10Part) "functionResponse"
        (objSet (Json.obj c10Frf) "response"
          (objSet (Json.obj [("status", Json.str "success"),
              ("location", Json.obj [("lat", Json.num 1)])])
            "ui_action" (Json.str "show_map")))) ∧
    lookupField (setField [("status", Json.str "success"),
        ("location", Json.obj [("lat", Json.num 1)])]
        "ui_action" (Json.str "show_map")) "ui_action" =
      some (Json.str "show_map") ∧
    interceptPart none (Json.obj [("functionResponse", Json.obj
        [("name", Json.str "show_place_details"),
         ("response", Json.obj [("status", Json.str "error")])])]) =
      Except.ok (Json.obj [("functionResponse", Json.obj
        [("name", Json.str "show_place_details"),
         ("response", Json.obj [("status", Json.str "error")])])]) :=
  ⟨(c4_show_place_details_amended.1 none c10Part c10Frf
      [("status", Json.str "success"), ("location", Json.obj [("lat", Json.num 1)])]
      (Json.obj [("lat", Json.num 1)]) rfl rfl rfl rfl rfl rfl rfl).1,
   (c4_show_place_details_amended.1 none c10Part c10Frf
      [("status", Json.str "success"), ("location", Json.obj [("lat", Json.num 1)])]
      (Json.obj [("lat", Json.num 1)]) rfl rfl rfl rfl rfl rfl rfl).2.1,
   c4_show_place_details_amended.2 none
      [("functionResponse", Json.obj [("name", Json.str "show_place_details"),
        ("response", Json.obj [("status", Json.str "error")])])]
      [("name", Json.str "show_place_details"),
        ("response", Json.obj [("status", Json.str "error")])]
      [("status", Json.str "error")]
      rfl rfl rfl rfl (Or.inl (by decide))⟩

/-- C4 counterexample: a `show_place_details` response whose `location`
is present and non-null but falsy (`{}`) is *not* augmented — the claim
"present, non-null location implies `ui_action = show_map` is added" is
false on the code, which tests Python truthiness instead. -/
theorem c4_counterexample :
    interceptPart none c4Part = Except.ok c4Part := rfl

/-- C5 (corrected).  The connect gate returns 404 exactly when the id is
absent from the store (conjunct 1); for any *present* entry — whatever
its status — it opens the stream and marks the entry `"in-progress"`
(conjunct 2), and a second connect for the same id is accepted again and
opens a second stream rather than failing (conjunct 3): the code checks
membership only, never the status. -/
theorem c5_single_stream_amended :
    (∀ store rid, sse_connect_open store rid = none ↔ lookupStore store rid = none) ∧
    (∀ store rid e, lookupStore store rid = some e →
      sse_connect_open store rid = some (setStatus store rid "in-progress")) ∧
    (∀ store rid e, lookupStore store rid = some e →
      (sse_connect_open (setStatus store rid "in-progress") rid).isSome = true) := by
  refine ⟨?_, ?_, ?_⟩
  · intro store rid
    cases hl : lookupStore store rid with
    | none => simp [sse_connect_open, hl]
    | some e => simp [sse_connect_open, hl]
  · intro store rid e hl
    simp [sse_connect_open, hl]
  · intro store rid e hl
    simp [sse_connect_open, lookupStore_setStatus, hl]

/-- C5 witness: the single-entry store gives 404 only for unknown ids;
a known id opens the stream and is marked in-progress. -/
theorem c5_witness :
    (sse_connect_open c5Store0 "r0" = none ↔ lookupStore c5Store0 "r0" = none) ∧
    sse_connect_open c5Store0 "r1" = some (setStatus c5Store0 "r1" "in-progress") ∧
    (sse_connect_open (setStatus c5Store0 "r1" "in-progress") "r1").isSome = true :=
  ⟨c5_single_stream_amended.1 c5Store0 "r0",
   c5_single_stream_amended.2.1 c5Store0 "r1" { payload := Json.null, status := "pending" } rfl,
   c5_single_stream_amended.2.2 c5Store0 "r1" { payload := Json.null, status := "pending" } rfl⟩

/-- C5 counterexample: after a first connect has moved `"r1"` to
`"in-progress"`, a second connect for `"r1"` is *accepted* (it returns a
stream, not the required 404/idempotent rejection). -/
theorem c5_counterexample :
    sse_connect_open c5Store0 "r1" = some c5Store1 ∧
    sse_connect_open c5Store1 "r1" = some c5Store1 :=
  ⟨rfl, rfl⟩

/-- C6 (corrected).  `store_location` assigns the record into the store
*before* the logging f-string whose `:.4f` conversions act as the only
coordinate validation, so the slot always ends up holding the posted
record (conjunct 1) even when the endpoint answers with the 500 error
response; success is reported iff both `lat` and `lng` are present and
number-formattable — Python booleans also pass `:.4f` (conjunct 2); and a
truthy record that failed validation is subsequently visible to the
rewriter as an available browser location (conjunct 3). -/
theorem c6_store_location_amended :
    (∀ slot loc, (store_location slot loc).1 = some loc) ∧
    (∀ slot loc, (store_location slot loc).2 = true ↔
      (∃ la, pyIndex loc "lat" = Except.ok la ∧ isNumFormattable la = true) ∧
      (∃ ln, pyIndex loc "lng" = Except.ok ln ∧ isNumFormattable ln = true)) ∧
    (∀ slot loc, truthy loc = true →
      browserAvailable (store_location slot loc).1 = true) := by
  refine ⟨fun slot loc => rfl, ?_, fun slot loc h => h⟩
  intro slot loc
  simp only [store_location, formatOk]
  cases hla : pyIndex loc "lat" with
  | error e => simp [hla]
  | ok la =>
    cases hln : pyIndex loc "lng" with
    | error e => simp [hla, hln]
    | ok ln => simp [hla, hln]

/-- C6 witness: the lat-less report `{lng: 1}` is stored, reported as an
error, and immediately available to the rewriter. -/
theorem c6_witness :
    (store_location none c6Bad).1 = some c6Bad ∧
    ((store_location none c6Bad).2 = true ↔
      (∃ la, pyIndex c6Bad "lat" = Except.ok la ∧ isNumFormattable la = true) ∧
      (∃ ln, pyIndex c6Bad "lng" = Except.ok ln ∧ isNumFormattable ln = true)) ∧
    browserAvailable (store_location none c6Bad).1 = true :=
  ⟨c6_store_location_amended.1 none c6Bad,
   c6_store_location_amended.2.1 none c6Bad,
   c6_store_location_amended.2.2 none c6Bad rfl⟩

/-- C6 counterexample: a report missing `lat` yields the error response,
yet the store now holds the invalid record — refuting "fails … and
leaves the store unchanged, so a subsequent get never returns a record
that failed validation". -/
theorem c6_counterexample :
    store_location none c6Bad = (some c6Bad, false) ∧
    (store_location none c6Bad).1 ≠ none :=
  ⟨rfl, fun h => Option.noConfusion h⟩

/-- C7 (corrected).  Whitespace-only chunks produce no frame (conjunct 1).
A decodable data chunk is re-emitted as `data: <json>` followed by
exactly one blank-line terminator — the serialized payload contains no
raw newline, so no extra blank line can appear inside the frame
(conjunct 2).  A non-decodable or non-`data: `-prefixed chunk is
forwarded as the original text with `"\n\n"` appended unconditionally
(conjuncts 3 and 4) — so when the original chunk already ends with the
blank-line terminator the forwarded frame carries a doubled terminator. -/
theorem c7_framing_amended :
    (∀ locs st c, isBlank c = true →
      processChunk locs st c = Except.ok (st, [])) ∧
    (∀ locs st c v st1 v1,
      isBlank c = false →
      "data: ".data.isPrefixOf c.data = true →
      jsonParse (String.mk (c.data.drop 6)) = some v →
      processData locs st v = Except.ok (st1, v1) →
      processChunk locs st c = Except.ok (st1, ["data: " ++ jsonDumps v1 ++ "\n\n"]) ∧
        hasNL (jsonDumps v1) = false) ∧
    (∀ locs st c,
      isBlank c = false →
      jsonParse (String.mk (c.data.drop 6)) = none →
      processChunk locs st c = Except.ok (st, [c ++ "\n\n"])) ∧
    (∀ locs st c,
      isBlank c = false →
      "data: ".data.isPrefixOf c.data = false →
      processChunk locs st c = Except.ok (st, [c ++ "\n\n"])) := by
  refine ⟨?_, ?_, ?_, ?_⟩
  · intro locs st c hb
    rw [processChunk, if_pos hb]
  · intro locs st c v st1 v1 hb hpre hp hd
    refine ⟨?_, jsonDumps_noNL v1⟩
    rw [processChunk, if_neg (by simp [hb]), if_pos hpre, hp]
    dsimp only
    rw [hd]
  · intro locs st c hb hp
    rw [processChunk, if_neg (by simp [hb])]
    by_cases hpre : "data: ".data.isPrefixOf c.data = true
    · rw [if_pos hpre, hp]
    · rw [if_neg hpre]
  · intro locs st c hb hpre
    rw [processChunk, if_neg (by simp [hb]), if_neg (by simp [hpre])]

/-- C7 witness: a whitespace chunk is dropped; the call event is framed
with exactly one terminator; `data: [` is forwarded with `"\n\n"`
appended; a non-`data:` chunk likewise. -/
theorem c7_witness :
    processChunk none initState " \n" = Except.ok (initState, []) ∧
    (processChunk none initState cCallChunk =
      Except.ok (stAfterCall, ["data: " ++ jsonDumps vCall ++ "\n\n"]) ∧
      hasNL (jsonDumps vCall) = false) ∧
    processChunk none initState "data: [" = Except.ok (initState, ["data: [" ++ "\n\n"]) ∧
    processChunk none initState "ping" = Except.ok (initState, ["ping" ++ "\n\n"]) :=
  ⟨c7_framing_amended.1 none initState " \n" rfl,
   c7_framing_amended.2.1 none initState cCallChunk vCall stAfterCall vCall rfl rfl rfl rfl,
   c7_framing_amended.2.2.1 none initState "data: [" rfl rfl,
   c7_framing_amended.2.2.2 none initState "ping" rfl rfl⟩

/-- C7 counterexample: the chunk `data: [\n\n` (an undecodable payload
already carrying its blank-line terminator) is forwarded with another
`"\n\n"` appended — the emitted frame ends in a doubled blank-line
terminator, refuting "never a doubled terminator". -/
theorem c7_counterexample :
    processChunk none initState "data: [\n\n" =
      Except.ok (initState, ["data: [\n\n\n\n"]) ∧
    "\n\n\n\n".data.isSuffixOf "data: [\n\n\n\n".data = true :=
  ⟨rfl, by decide⟩

/-- C8 (confirmed).  The non-streaming rewrite pass is idempotent: for
every browser-store contents and every input value, if one pass succeeds
with result `y`, a second pass over `y` (with the same stored location)
returns `y` unchanged.  (A pass that raises has no result to re-process;
the substitution always rebuilds the same replacement object, and the
augmentation re-sets `ui_action` to the same value in place.) -/
theorem c8_intercept_idempotent (locs : Option Json) (x y : Json)
    (h : intercept_function_calls locs x = Except.ok y) :
    intercept_function_calls locs y = Except.ok y := by
  cases x with
  | arr evs =>
    cases hev : interceptEvents locs evs with
    | error e => rw [intercept_function_calls, hev] at h; simp at h
    | ok evs1 =>
      rw [intercept_function_calls, hev] at h
      simp only [Except.ok.injEq] at h
      subst h
      rw [intercept_function_calls, interceptEvents_idem locs evs evs1 hev]
  | null =>
    simp only [intercept_function_calls, Except.ok.injEq] at h
    subst h; rfl
  | bool b =>
    simp only [intercept_function_calls, Except.ok.injEq] at h
    subst h; rfl
  | num n =>
    simp only [intercept_function_calls, Except.ok.injEq] at h
    subst h; rfl
  | str s =>
    simp only [intercept_function_calls, Except.ok.injEq] at h
    subst h; rfl
  | obj fs =>
    simp only [intercept_function_calls, Except.ok.injEq] at h
    subst h; rfl

/-- C8 witness: one pass over an events list triggering both rewrite
rules yields `w8Y`; the second pass fixes `w8Y`. -/
theorem c8_witness :
    intercept_function_calls cLocs w8X = Except.ok w8Y ∧
    intercept_function_calls cLocs w8Y = Except.ok w8Y :=
  ⟨rfl, c8_intercept_idempotent cLocs w8X w8Y rfl⟩

/-- C9 (confirmed).  If the pipeline raises while processing a chunk
(conjunct 1) or the upstream transport fails after a clean prefix
(conjunct 2), the generator emits exactly the frames already produced
for the clean prefix followed by one terminal error frame, and the
pending request is marked `"error"`; a present store entry indeed ends
with status `"error"` (conjunct 3).  Frames already emitted are
untouched — the error frame is appended. -/
theorem c9_error_terminal_frame :
    (∀ locs store rid cs1 c cs2 fs1 st1 e,
      runChunks locs initState cs1 = (fs1, st1, none) →
      processChunk locs st1 c = Except.error e →
      event_generator locs (cs1 ++ c :: cs2) none store rid =
        (fs1 ++ [errorFrame e], setStatus store rid "error")) ∧
    (∀ locs store rid cs fs st1 e,
      runChunks locs initState cs = (fs, st1, none) →
      event_generator locs cs (some e) store rid =
        (fs ++ [errorFrame e], setStatus store rid "error")) ∧
    (∀ store rid entry s,
      lookupStore store rid = some entry →
      lookupStore (setStatus store rid s) rid = some { entry with status := s }) := by
  refine ⟨?_, ?_, ?_⟩
  · intro locs store rid cs1 c cs2 fs1 st1 e h1 h2
    rw [event_generator, runChunks_append locs initState cs1 (c :: cs2) fs1 st1 h1]
    rw [runChunks, h2]
    simp
  · intro locs store rid cs fs st1 e h1
    rw [event_generator, h1]
  · intro store rid entry s hl
    rw [lookupStore_setStatus, hl]
    rfl

/-- C9 witness: with a truthy non-dict browser slot the substitution
raises `TypeError` on the matched response chunk — the call frame is
followed by exactly one error frame and the entry is marked `"error"`;
likewise for a transport error after a clean prefix. -/
theorem c9_witness :
    event_generator c9Locs ([cCallChunk] ++ cRespChunk :: []) none c5Store1 "r1" =
      ([cCallChunk] ++ [errorFrame "TypeError"], setStatus c5Store1 "r1" "error") ∧
    event_generator cLocs [cCallChunk] (some "timeout") c5Store1 "r1" =
      ([cCallChunk] ++ [errorFrame "timeout"], setStatus c5Store1 "r1" "error") ∧
    lookupStore (setStatus c5Store1 "r1" "error") "r1" =
      some { payload := Json.null, status := "error" } :=
  ⟨c9_error_terminal_frame.1 c9Locs c5Store1 "r1" [cCallChunk] cRespChunk []
      [cCallChunk] stAfterCall "TypeError" rfl rfl,
   c9_error_terminal_frame.2.1 cLocs c5Store1 "r1" [cCallChunk]
      [cCallChunk] stAfterCall "timeout" rfl,
   c9_error_terminal_frame.2.2 c5Store1 "r1"
      { payload := Json.null, status := "in-progress" } "error" rfl⟩

/-- C10 (confirmed).  The per-part checks form an exclusive `if/elif`
chain: when the correlator is armed and a function-response part's id
equals the tracked id, the part is handled by the substitution branch
(conjunct 1) even when its function name is `show_place_details`; in
particular with no stored browser location it passes through unchanged —
no `ui_action` is added (conjunct 2) — and the substituted response
object never contains a `ui_action` key (conjunct 3). -/
theorem c10_elif_exclusive (locs : Option Json) (st : CorrState)
    (pf frf : List (String × Json))
    (hdet : st.detected = true)
    (hfc : lookupField pf "functionCall" = none)
    (hfr : lookupField pf "functionResponse" = some (Json.obj frf))
    (htr : truthy (Json.obj frf) = true)
    (_hnm : lookupField frf "name" = some (Json.str "show_place_details"))
    (hid : pyEq ((lookupField frf "id").getD Json.null) st.currentId = true) :
    processPart locs st (Json.obj pf) =
      substituteLocation locs st (Json.obj pf) (Json.obj frf) ∧
    (locs = none →
      processPart locs st (Json.obj pf) = Except.ok (st, Json.obj pf)) ∧
    (∀ lat lng acc, objLookup (newLocationResponse lat lng acc) "ui_action" = none) := by
  have hnull : truthy Json.null = false := rfl
  have hmain : processPart locs st (Json.obj pf) =
      substituteLocation locs st (Json.obj pf) (Json.obj frf) := by
    simp only [processPart, processPartResp, pyGet, hfc, Option.getD_none,
      hnull, Bool.false_eq_true, if_false, hfr, Option.getD_some, htr, if_true,
      hdet, hid]
  refine ⟨hmain, ?_, fun lat lng acc => rfl⟩
  intro hln
  subst hln
  rw [hmain]
  rfl

/-- C10 witness: an armed state with id `"f1"` routes the
`show_place_details`-named response carrying id `"f1"` into the
substitution branch; with no browser location it is unchanged (no
`ui_action` despite an eligible response). -/
theorem c10_witness :
    processPart none stAfterCall (Json.obj c10Part) =
      substituteLocation none stAfterCall (Json.obj c10Part) (Json.obj c10Frf) ∧
    (none = (none : Option Json) →
      processPart none stAfterCall (Json.obj c10Part) =
        Except.ok (stAfterCall, Json.obj c10Part)) ∧
    (∀ lat lng acc, objLookup (newLocationResponse lat lng acc) "ui_action" = none) :=
  c10_elif_exclusive none stAfterCall c10Part c10Frf rfl rfl rfl rfl rfl rfl
